import Mathlib

/-!
Verification development for the timetable generation core of the
`timetables` repository (backend/app/scheduling/improved_scheduler.py,
backend/app/scheduling/cpsat_scheduler.py, backend/app/routes/timetables.py).

The Python code is shallowly embedded: identifiers are opaque naturals,
Python dicts become insertion-ordered association lists, mutable trackers
become explicit state records, and code paths that can raise (`int(...)`
on a non-numeric key, attribute access on `None`) return `Option`/`none`.
Scores are exact integers (every contribution in the source is an integer);
block averages are exact rationals.
-/

namespace Timetables

/-! ## Python dict helpers (insertion-ordered association lists) -/

/-- Lookup in an insertion-ordered association list (Python `d[k]` / `d.get(k)`). -/
def dictLookup {α : Type} (d : List (String × α)) (k : String) : Option α :=
  match d with
  | [] => none
  | (k', v) :: rest => if k' = k then some v else dictLookup rest k

/-- Python `d[k] = v`: update in place if the key exists, else append. -/
def dictInsert {α : Type} (d : List (String × α)) (k : String) (v : α) :
    List (String × α) :=
  match d with
  | [] => [(k, v)]
  | (k', v') :: rest =>
      if k' = k then (k, v) :: rest else (k', v') :: dictInsert rest k v

/-- Python `defaultdict(list)`-style append used to build `slots_by_day`. -/
def dictAppend {α : Type} (d : List (String × List α)) (k : String) (v : α) :
    List (String × List α) :=
  match d with
  | [] => [(k, [v])]
  | (k', vs) :: rest =>
      if k' = k then (k', vs ++ [v]) :: rest else (k', vs) :: dictAppend rest k v

/-! ## Kernel-computable string primitives

The embedding re-implements the handful of Python string operations it needs
(`lower()`, `upper()`, `split('+')`, `strip()`, `int(...)`, `'+'.join(...)`)
by structural recursion over the character list, with the same behaviour as
the originals. -/

/-- `s.lower()`. -/
def strToLower (s : String) : String := ⟨s.data.map Char.toLower⟩

/-- `s.upper()`. -/
def strToUpper (s : String) : String := ⟨s.data.map Char.toUpper⟩

/-- Split a character list at every `'+'`, keeping empty pieces. -/
def splitPlusGo : List Char → List (List Char)
  | [] => [[]]
  | c :: rest =>
      if c = '+' then [] :: splitPlusGo rest
      else
        match splitPlusGo rest with
        | g :: gs => (c :: g) :: gs
        | [] => [[c]]

/-- `s.split('+')`. -/
def splitPlus (s : String) : List String :=
  (splitPlusGo s.data).map (fun cs => ⟨cs⟩)

/-- Decimal value of a digit run (`none` on a non-digit). -/
def digitsValGo (acc : Nat) : List Char → Option Nat
  | [] => some acc
  | c :: rest =>
      if c.isDigit then digitsValGo (acc * 10 + (c.toNat - '0'.toNat)) rest
      else none

/-- Strip leading and trailing whitespace. -/
def trimChars (l : List Char) : List Char :=
  ((l.dropWhile Char.isWhitespace).reverse.dropWhile Char.isWhitespace).reverse

/-- Python `int(...)` over a trimmed character list: optional sign, then a
non-empty digit run. -/
def pyIntChars : List Char → Option Int
  | [] => none
  | c :: rest =>
      if c = '+' then
        match rest with
        | [] => none
        | _ => (digitsValGo 0 rest).map (fun n => (n : Int))
      else if c = '-' then
        match rest with
        | [] => none
        | _ => (digitsValGo 0 rest).map (fun n => -(n : Int))
      else (digitsValGo 0 (c :: rest)).map (fun n => (n : Int))

/-- `'+'.join(parts)`. -/
def intercalatePlus : List String → String
  | [] => ""
  | [s] => s
  | s :: rest => s ++ "+" ++ intercalatePlus rest

/-! ## Day normalisation (improved_scheduler.DAY_NUMBER_TO_NAME) -/

/-- Day number to day name mapping (frontend uses numbers, backend uses names). -/
def DAY_NUMBER_TO_NAME : List (String × String) :=
  [("1", "monday"), ("2", "tuesday"), ("3", "wednesday"), ("4", "thursday"),
   ("5", "friday"), ("6", "saturday"), ("7", "sunday")]

/-- `normalize_unavailable_slots`: converts `{"1": [1,2,3]}` or
`{"monday": [1,2,3]}` to `{"monday": [1,2,3]}`; number-string keys are mapped
through `DAY_NUMBER_TO_NAME`, other keys are lowercased. -/
def normalize_unavailable_slots (unavailable_slots : List (String × List Int)) :
    List (String × List Int) :=
  unavailable_slots.foldl
    (fun normalized kp =>
      match dictLookup DAY_NUMBER_TO_NAME kp.1 with
      | some day_name => dictInsert normalized day_name kp.2
      | none => dictInsert normalized (strToLower kp.1) kp.2)
    []

/-! ## Entities (models/*.py, fields used by the schedulers) -/

/-- models/time_slot.py `TimeSlot`; `day` holds the `DayOfWeek` enum value
(a lowercase day name). -/
structure TimeSlot where
  id : Nat
  day : String
  period_number : Int
  is_break : Bool
  deriving DecidableEq, Repr

/-- models/subject.py `Subject` (scheduling-relevant fields). -/
structure Subject where
  name : String
  difficulty_level : Int
  default_distribution_format : Option String
  requires_room_type : Option String
  deriving DecidableEq, Repr

/-- models/room.py `Room` (scheduling-relevant fields). -/
structure Room where
  id : Nat
  room_type : String
  deriving DecidableEq, Repr

/-- models/class_model.py `Class` (scheduling-relevant fields). -/
structure Class where
  id : Nat
  name : String
  max_hours_per_day : Option Int
  default_room_id : Option Nat
  unavailable_slots : List (String × List Int)
  deriving DecidableEq, Repr

/-- models/teacher.py `Teacher` (scheduling-relevant fields). -/
structure Teacher where
  id : Nat
  unavailable_slots : List (String × List Int)
  default_room_id : Option Nat
  deriving DecidableEq, Repr

/-- models/lesson.py `LessonGroup` (scheduling-relevant fields). -/
structure LessonGroup where
  id : Nat
  group_name : String
  teacher_id : Option Nat
  teacher : Option Teacher
  deriving DecidableEq, Repr

/-- models/lesson.py `Lesson` (scheduling-relevant fields); `extra_metadata`
keeps only the `user_distribution_pattern` key actually read by the code. -/
structure Lesson where
  id : Nat
  class_id : Nat
  class_ : Option Class
  subject : Option Subject
  teacher_id : Option Nat
  teacher : Option Teacher
  hours_per_week : Nat
  num_groups : Option Int
  max_hours_per_day : Option Int
  lesson_groups : List LessonGroup
  extra_metadata : List (String × String)
  deriving DecidableEq, Repr

/-- models/timetable.py `Timetable` (fields read by the scheduler);
`algorithm_parameters` keeps only the `max_consecutive_same_subject` key. -/
structure Timetable where
  id : Nat
  algorithm_parameters : Option (List (String × Int))
  deriving DecidableEq, Repr

/-- models/timetable.py `TimetableEntry` as produced by the schedulers. -/
structure TimetableEntry where
  timetable_id : Nat
  time_slot_id : Nat
  lesson_id : Nat
  lesson_group_id : Option Nat
  room_id : Option Nat
  deriving DecidableEq, Repr

/-! ## Constraint tracker (improved_scheduler.SchedulingConstraints) -/

/-- Pointwise update of a two-argument counter map. -/
def upd2 {α : Type} (f : Nat → String → α) (i : Nat) (d : String) (v : α) :
    Nat → String → α :=
  fun i' d' => if i' = i ∧ d' = d then v else f i' d'

/-- Pointwise update of the `(class, day, period)` difficulty map. -/
def upd3 (f : Nat → String → Int → Option Int) (c : Nat) (d : String) (p : Int)
    (v : Int) : Nat → String → Int → Option Int :=
  fun c' d' p' => if c' = c ∧ d' = d ∧ p' = p then some v else f c' d' p'

/-- `SchedulingConstraints`: occupancy maps are sets of `(slot_id, entity_id)`
pairs, the soft-constraint counters are total maps defaulting to `0`/`[]`. -/
structure SchedulingConstraints where
  class_busy : List (Nat × Nat)
  teacher_busy : List (Nat × Nat)
  room_busy : List (Nat × Nat)
  lesson_daily_count : Nat → String → Int
  lesson_periods_by_day : Nat → String → List Int
  class_daily_count : Nat → String → Int
  teacher_daily_count : Nat → String → Int
  class_daily_difficulty : Nat → String → Int
  class_period_difficulty : Nat → String → Int → Option Int

namespace SchedulingConstraints

/-- `SchedulingConstraints.__init__`: everything empty / zero. -/
def init : SchedulingConstraints :=
  ⟨[], [], [], fun _ _ => 0, fun _ _ => [], fun _ _ => 0, fun _ _ => 0,
   fun _ _ => 0, fun _ _ _ => none⟩

/-- Shared shape of the unavailable-slot check inside `is_class_available` /
`is_teacher_available`: lowercase the day, look it up, test the period. -/
def unavailHit (unavailable : List (String × List Int)) (day : String)
    (period : Int) : Bool :=
  match dictLookup unavailable (strToLower day) with
  | some periods_list => period ∈ periods_list
  | none => false

/-- `is_class_available(slot_id, class_id, class_unavailable_slots, day, period)`:
not busy, and — when an unavailability mapping and a day are given — the
`(day, period)` pair is not in the mapping. -/
def is_class_available (c : SchedulingConstraints) (slot_id class_id : Nat)
    (class_unavailable_slots : List (String × List Int)) (day : String)
    (period : Int) : Bool :=
  if (slot_id, class_id) ∈ c.class_busy then false
  else if class_unavailable_slots ≠ [] ∧ day ≠ "" then
    ¬ unavailHit class_unavailable_slots day period
  else true

/-- `is_teacher_available(slot_id, teacher_id, teacher_unavailable_slots, day,
period)`: a `None` teacher is always available; otherwise as for classes. -/
def is_teacher_available (c : SchedulingConstraints) (slot_id : Nat)
    (teacher_id : Option Nat) (teacher_unavailable_slots : List (String × List Int))
    (day : String) (period : Int) : Bool :=
  match teacher_id with
  | none => true
  | some tid =>
      if (slot_id, tid) ∈ c.teacher_busy then false
      else if teacher_unavailable_slots ≠ [] ∧ day ≠ "" then
        ¬ unavailHit teacher_unavailable_slots day period
      else true

/-- `is_room_available(slot_id, room_id)`. -/
def is_room_available (c : SchedulingConstraints) (slot_id : Nat)
    (room_id : Option Nat) : Bool :=
  match room_id with
  | none => true
  | some rid => (slot_id, rid) ∉ c.room_busy

/-- `mark_class_busy`. -/
def mark_class_busy (c : SchedulingConstraints) (slot_id class_id : Nat) :
    SchedulingConstraints :=
  { c with class_busy := (slot_id, class_id) :: c.class_busy }

/-- `mark_teacher_busy`: a no-op when `teacher_id` is `None`. -/
def mark_teacher_busy (c : SchedulingConstraints) (slot_id : Nat)
    (teacher_id : Option Nat) : SchedulingConstraints :=
  match teacher_id with
  | none => c
  | some tid => { c with teacher_busy := (slot_id, tid) :: c.teacher_busy }

/-- `mark_room_busy`: a no-op when `room_id` is `None`. -/
def mark_room_busy (c : SchedulingConstraints) (slot_id : Nat)
    (room_id : Option Nat) : SchedulingConstraints :=
  match room_id with
  | none => c
  | some rid => { c with room_busy := (slot_id, rid) :: c.room_busy }

/-- `add_lesson_assignment`: update every soft-constraint counter. -/
def add_lesson_assignment (c : SchedulingConstraints) (lesson_id : Nat)
    (day : String) (period : Int) (class_id : Nat) (teacher_id : Option Nat)
    (difficulty_level : Int) : SchedulingConstraints :=
  { c with
    lesson_daily_count :=
      upd2 c.lesson_daily_count lesson_id day (c.lesson_daily_count lesson_id day + 1)
    lesson_periods_by_day :=
      upd2 c.lesson_periods_by_day lesson_id day
        (c.lesson_periods_by_day lesson_id day ++ [period])
    class_daily_count :=
      upd2 c.class_daily_count class_id day (c.class_daily_count class_id day + 1)
    teacher_daily_count :=
      match teacher_id with
      | some tid => upd2 c.teacher_daily_count tid day (c.teacher_daily_count tid day + 1)
      | none => c.teacher_daily_count
    class_daily_difficulty :=
      upd2 c.class_daily_difficulty class_id day
        (c.class_daily_difficulty class_id day + difficulty_level)
    class_period_difficulty :=
      upd3 c.class_period_difficulty class_id day period difficulty_level }

/-- `would_be_consecutive`: some already-recorded period is adjacent. -/
def would_be_consecutive (c : SchedulingConstraints) (lesson_id : Nat)
    (day : String) (period : Int) : Bool :=
  (c.lesson_periods_by_day lesson_id day).any (fun p => (p - period).natAbs = 1)

/-- `get_lesson_day_count`. -/
def get_lesson_day_count (c : SchedulingConstraints) (lesson_id : Nat)
    (day : String) : Int :=
  c.lesson_daily_count lesson_id day

/-- `get_class_day_count`. -/
def get_class_day_count (c : SchedulingConstraints) (class_id : Nat)
    (day : String) : Int :=
  c.class_daily_count class_id day

/-- `get_teacher_day_count`. -/
def get_teacher_day_count (c : SchedulingConstraints) (teacher_id : Nat)
    (day : String) : Int :=
  c.teacher_daily_count teacher_id day

end SchedulingConstraints

/-- Ascending stable insertion used to model Python's stable sorts. -/
def insertAscBy {α : Type} (key : α → Int) (x : α) : List α → List α
  | [] => [x]
  | y :: ys =>
      if key y ≤ key x then y :: insertAscBy key x ys else x :: y :: ys

/-- Stable ascending sort by an integer key (Python `list.sort(key=...)`). -/
def sortAscBy {α : Type} (key : α → Int) (l : List α) : List α :=
  l.foldl (fun acc x => insertAscBy key x acc) []

/-- Descending stable insertion (Python `sort(key=..., reverse=True)` keeps
the original order of equal keys). -/
def insertDescBy {α : Type} (key : α → Int) (x : α) : List α → List α
  | [] => [x]
  | y :: ys =>
      if key x ≤ key y then y :: insertDescBy key x ys else x :: y :: ys

/-- Stable descending sort by an integer key. -/
def sortDescBy {α : Type} (key : α → Int) (l : List α) : List α :=
  l.foldl (fun acc x => insertDescBy key x acc) []

/-- The exact value of a Python float average `total_score / len(block)`:
a numerator/denominator pair compared by cross-multiplication (denominators
are block lengths, hence positive wherever the source divides). -/
structure Frac where
  num : Int
  den : Int
  deriving DecidableEq, Repr

/-- `x < y` for positive denominators. -/
def Frac.lt (x y : Frac) : Bool := x.num * y.den < y.num * x.den

/-- `x ≤ y` for positive denominators. -/
def Frac.le (x y : Frac) : Bool := x.num * y.den ≤ y.num * x.den

/-- `x < 0` for a positive denominator. -/
def Frac.isNeg (x : Frac) : Bool := x.num < 0

/-- `x + k` for an integer `k` (used by the block-size sort key). -/
def Frac.addInt (x : Frac) (k : Int) : Frac := ⟨x.num + k * x.den, x.den⟩

/-- Descending stable insertion with a fractional key (for score-sorted
block candidate lists). -/
def insertDescByFrac {α : Type} (key : α → Frac) (x : α) : List α → List α
  | [] => [x]
  | y :: ys =>
      if Frac.le (key x) (key y) then y :: insertDescByFrac key x ys
      else x :: y :: ys

/-- Stable descending sort by a fractional key. -/
def sortDescByFrac {α : Type} (key : α → Frac) (l : List α) : List α :=
  l.foldl (fun acc x => insertDescByFrac key x acc) []

/-- Longest run of consecutive integers in an already-sorted list, exactly as
the loop in `would_exceed_consecutive_limit` computes it (both counters start
at 1). -/
def longestRun : List Int → Nat
  | [] => 0
  | x :: xs => longestRunGo xs x 1 1
where
  longestRunGo : List Int → Int → Nat → Nat → Nat
  | [], _, _, best => best
  | y :: ys, prev, cur, best =>
      if y = prev + 1 then longestRunGo ys y (cur + 1) (max best (cur + 1))
      else longestRunGo ys y 1 best

namespace SchedulingConstraints

/-- `would_exceed_consecutive_limit`: after hypothetically adding `period`,
the longest consecutive run for this lesson on this day exceeds the limit. -/
def would_exceed_consecutive_limit (c : SchedulingConstraints) (lesson_id : Nat)
    (day : String) (period : Int) (max_consecutive : Int) : Bool :=
  let existing_periods := sortAscBy id (c.lesson_periods_by_day lesson_id day)
  let all_periods := sortAscBy id (existing_periods ++ [period])
  match all_periods with
  | [] => false
  | _ => (longestRun all_periods : Int) > max_consecutive

/-- `would_exceed_max_hours_per_day`: `None` means no limit, otherwise the
current count must stay below the cap. -/
def would_exceed_max_hours_per_day (c : SchedulingConstraints) (lesson_id : Nat)
    (day : String) (max_hours_per_day : Option Int) : Bool :=
  match max_hours_per_day with
  | none => false
  | some cap => c.lesson_daily_count lesson_id day ≥ cap

/-- `get_class_daily_difficulty`. -/
def get_class_daily_difficulty (c : SchedulingConstraints) (class_id : Nat)
    (day : String) : Int :=
  c.class_daily_difficulty class_id day

/-- `get_consecutive_difficulty_penalty`: +50 per adjacent cell already ≥7 when
the new lesson is ≥7, +25 per adjacent cell ≥5 when the new lesson is ≥7. -/
def get_consecutive_difficulty_penalty (c : SchedulingConstraints)
    (class_id : Nat) (day : String) (period : Int) (new_difficulty : Int) : Int :=
  let prev_difficulty := (c.class_period_difficulty class_id day (period - 1)).getD 0
  let penalty : Int :=
    if prev_difficulty ≥ 7 ∧ new_difficulty ≥ 7 then 50
    else if prev_difficulty ≥ 5 ∧ new_difficulty ≥ 7 then 25
    else 0
  let next_difficulty := (c.class_period_difficulty class_id day (period + 1)).getD 0
  if next_difficulty ≥ 7 ∧ new_difficulty ≥ 7 then penalty + 50
  else if next_difficulty ≥ 5 ∧ new_difficulty ≥ 7 then penalty + 25
  else penalty

end SchedulingConstraints

/-! ## Slot scoring (improved_scheduler.calculate_slot_score) -/

/-- The difficulty-vs-time-of-day block of `calculate_slot_score`, returned as
the signed contribution it adds to the score. -/
def difficultyTimeScore (difficulty_level period : Int) : Int :=
  if difficulty_level ≥ 7 then
    if period ≤ 3 then 40
    else if period ≤ 5 then 10
    else -30
  else if difficulty_level ≥ 4 then
    if period ≤ 2 then 15
    else if period ≤ 6 then 10
    else -10
  else
    if period ≥ 6 then 15
    else if period ≤ 2 then -5
    else 0

/-- `calculate_slot_score(slot, lesson_id, class_id, teacher_ids, constraints,
block_size, max_daily_lessons, difficulty_level)`; every contribution in the
source is an integer, so the score is an integer. -/
def calculate_slot_score (slot : TimeSlot) (lesson_id class_id : Nat)
    (teacher_ids : List (Option Nat)) (constraints : SchedulingConstraints)
    (block_size : Nat) (max_daily_lessons : Int) (difficulty_level : Int) : Int :=
  let day := slot.day
  let period := slot.period_number
  let lessons_on_day := constraints.get_lesson_day_count lesson_id day
  let score : Int := 100 - lessons_on_day * 20
  let score :=
    if block_size > 1 ∧ constraints.would_be_consecutive lesson_id day period then
      score + 50
    else score
  let class_lessons_on_day := constraints.get_class_day_count class_id day
  let score :=
    if class_lessons_on_day ≥ max_daily_lessons then score - 1000
    else score - class_lessons_on_day * 5
  let score :=
    teacher_ids.foldl
      (fun score teacher_id =>
        match teacher_id with
        | none => score
        | some tid =>
            let teacher_lessons_on_day := constraints.get_teacher_day_count tid day
            if teacher_lessons_on_day ≥ max_daily_lessons then score - 1000
            else score - teacher_lessons_on_day * 3)
      score
  let score := score + difficultyTimeScore difficulty_level period
  let score :=
    score - constraints.get_consecutive_difficulty_penalty class_id day period
      difficulty_level
  let daily_difficulty := constraints.get_class_daily_difficulty class_id day
  let score :=
    if daily_difficulty ≥ 30 then score - 40
    else if daily_difficulty ≥ 20 then score - 20
    else score
  score + (10 - period) * 2

/-! ## Room resolution (improved_scheduler.get_room_for_lesson) -/

/-- Strategy 3 of `get_room_for_lesson`: scan `rooms` in order for a free room;
when a special room type is required (and the subject is present) only a
matching `room_type` is accepted. -/
def scanRooms (constraints : SchedulingConstraints) (slot_id : Nat)
    (requires_special : Bool) (subject : Option Subject) :
    List Room → Option Nat
  | [] => none
  | room :: rest =>
      if constraints.is_room_available slot_id (some room.id) then
        match subject with
        | some subject_obj =>
            if requires_special then
              if subject_obj.requires_room_type = some room.room_type then some room.id
              else scanRooms constraints slot_id requires_special subject rest
            else some room.id
        | none => some room.id
      else scanRooms constraints slot_id requires_special subject rest

/-- `get_room_for_lesson(lesson, group_teacher_id, rooms, constraints, slot_id)`:
teacher's default room for special subjects, else the class's default room,
else the first acceptable free room. -/
def get_room_for_lesson (lesson : Lesson) (group_teacher_id : Option Nat)
    (rooms : List Room) (constraints : SchedulingConstraints) (slot_id : Nat) :
    Option Nat :=
  let class_obj := lesson.class_
  let subject_obj := lesson.subject
  let teacher_obj : Option Teacher :=
    match group_teacher_id, lesson.teacher with
    | some gtid, some t => if t.id = gtid then some t else none
    | _, _ => none
  let requires_special : Bool :=
    match subject_obj with
    | some s =>
        s.requires_room_type = some "laboratory" ∨ s.requires_room_type = some "sports" ∨
        s.requires_room_type = some "music" ∨ s.requires_room_type = some "art"
    | none => false
  let step1 : Option Nat :=
    if requires_special then
      match teacher_obj with
      | some t =>
          match t.default_room_id with
          | some rid =>
              if constraints.is_room_available slot_id (some rid) then some rid else none
          | none => none
      | none => none
    else none
  match step1 with
  | some rid => some rid
  | none =>
      let step2 : Option Nat :=
        match class_obj with
        | some cls =>
            match cls.default_room_id with
            | some rid =>
                if constraints.is_room_available slot_id (some rid) then some rid
                else none
            | none => none
        | none => none
      match step2 with
      | some rid => some rid
      | none => scanRooms constraints slot_id requires_special subject_obj rooms

/-! ## Distribution patterns -/

/-- Python `int(s)` on a string: optional surrounding whitespace, optional
sign, digits; `none` models the `ValueError`. -/
def pyInt (s : String) : Option Int :=
  pyIntChars (trimChars s.data)

/-- `sorted([int(x) for x in user_pattern.split('+')], reverse=True)`;
`none` models the `except` branch taken when some part fails to parse. -/
def parsePattern (user_pattern : String) : Option (List Int) :=
  match (splitPlus user_pattern).mapM pyInt with
  | some ns => some (sortAscBy id ns).reverse
  | none => none

/-- The `while remaining_hours > 0` auto-pattern loop. The source diverges
when `block_size ≤ 0` (never reached through the scheduler, which passes
`max_consecutive_same_subject ≥ 1` by default); the fuel argument makes the
embedding total without changing any terminating behaviour. -/
def autoBlocksGo (block_size : Int) : Nat → Int → List Int
  | 0, _ => []
  | fuel + 1, remaining_hours =>
      if remaining_hours > 0 then
        if remaining_hours ≥ block_size then
          block_size :: autoBlocksGo block_size fuel (remaining_hours - block_size)
        else [remaining_hours]
      else []

/-- Auto-generated distribution pattern: greedily chop `hours_needed` into
blocks of `min(max_consecutive_same_subject, hours_needed)`, sorted
descending. -/
def autoBlocks (hours_needed : Nat) (max_consecutive_same_subject : Int) : List Int :=
  let block_size := min max_consecutive_same_subject (hours_needed : Int)
  sortDescBy id (autoBlocksGo block_size (hours_needed + 1) (hours_needed : Int))

/-- Result of the pattern-resolution block of `schedule_lessons_improved`. -/
structure PatternChoice where
  user_pattern : Option String
  preferred_block_sizes : List Int
  use_double_periods : Bool
  deriving DecidableEq, Repr

/-- Pattern resolution: lesson-level `user_distribution_pattern`, else the
subject's `default_distribution_format`, else the auto-generated pattern;
a parse failure falls back to the auto pattern. `none` models the
`AttributeError` raised when the lesson has no pattern metadata and
`lesson.subject` is `None` (the `elif subject_obj.default_distribution_format`
line dereferences it unguarded). -/
def resolvePattern (lesson : Lesson) (hours_needed : Nat)
    (max_consecutive_same_subject : Int) : Option PatternChoice :=
  let auto : PatternChoice :=
    let bs := autoBlocks hours_needed max_consecutive_same_subject
    ⟨none, bs, bs.any (fun size => size > 1)⟩
  let fromString : String → PatternChoice := fun p =>
    match parsePattern p with
    | some bs => ⟨some p, bs, bs.any (fun size => size > 1)⟩
    | none => auto
  let metaPattern : Option String :=
    if lesson.extra_metadata ≠ [] then
      match dictLookup lesson.extra_metadata "user_distribution_pattern" with
      | some s => if s ≠ "" then some s else none
      | none => none
    else none
  match metaPattern with
  | some p => some (fromString p)
  | none =>
      match lesson.subject with
      | none => none
      | some subject_obj =>
          match subject_obj.default_distribution_format with
          | some d => if d ≠ "" then some (fromString d) else some auto
          | none => some auto

/-! ## Heuristic scheduler (improved_scheduler.schedule_lessons_improved)

The mutable locals of the Python function become an explicit state. The
fields `pySlot` and `pyScore` model the function-scoped bindings of the loop
variables `slot` and `score`: Python `for` targets stay bound after their
loop, and the grouped-lesson fallback reads them after its candidate loop. -/

/-- State threaded through `schedule_lessons_improved`. -/
structure RunState where
  constraints : SchedulingConstraints
  entries : List TimetableEntry
  assigned_count : Nat
  hard_violations : Nat
  soft_violations : Nat
  pySlot : Option TimeSlot
  pyScore : Option Int

/-- Initial state of a run. -/
def RunState.start : RunState :=
  ⟨SchedulingConstraints.init, [], 0, 0, 0, none, none⟩

/-- `lesson_priority`: grouped lessons first, then single-hour lessons, then
by difficulty and weekly hours. -/
def lesson_priority (lesson : Lesson) : Int :=
  let difficulty := match lesson.subject with | some s => s.difficulty_level | none => 5
  let hours : Int := lesson.hours_per_week
  let is_grouped := match lesson.num_groups with | some n => decide (n > 1) | none => false
  let is_single_hour := lesson.hours_per_week = 1
  (if is_grouped then 100000 else 0) + (if is_single_hour then 10000 else 0) +
    difficulty * 100 + hours

/-- One schedulable group of a grouped lesson: the group row, the resolved
teacher id (`group.teacher_id if group.teacher_id else lesson.teacher_id`)
and the normalised unavailability of the group's (or lesson's) teacher. -/
structure GroupInfo where
  group : LessonGroup
  gtid : Option Nat
  unavail : List (String × List Int)
  deriving Repr

/-- Per-lesson context shared by the grouped and ungrouped paths. -/
structure LessonCtx where
  timetable : Timetable
  rooms : List Room
  slots_by_day : List (String × List TimeSlot)
  max_consecutive_same_subject : Int
  lesson : Lesson
  class_unavailable : List (String × List Int)
  teacher_unavailable : List (String × List Int)
  difficulty_level : Int
  hours_needed : Nat
  preferred_block_sizes : List Int
  use_double_periods : Bool

/-- Windows `day_slots[i : i + block_size]` for `i` in `range(len(day_slots))`,
skipping those that run past the end. -/
def windows (day_slots : List TimeSlot) (block_size : Nat) : List (List TimeSlot) :=
  (List.range day_slots.length).filterMap (fun i =>
    if i + block_size ≤ day_slots.length then
      some ((day_slots.drop i).take block_size)
    else none)

/-- All group teachers available at a slot. -/
def allGroupTeachersAvailable (c : SchedulingConstraints) (slot : TimeSlot)
    (ginfos : List GroupInfo) : Bool :=
  ginfos.all (fun g =>
    c.is_teacher_available slot.id g.gtid g.unavail slot.day slot.period_number)

/-- Validity loop of a grouped block: every slot available for the class and
for all group teachers; also returns the final binding of the loop variable
`slot` (the failing slot, or the last slot of the block). -/
def groupBlockValid (ctx : LessonCtx) (ginfos : List GroupInfo)
    (c : SchedulingConstraints) :
    List TimeSlot → Option TimeSlot → Bool × Option TimeSlot
  | [], last => (true, last)
  | slot :: rest, _ =>
      if ¬ c.is_class_available slot.id ctx.lesson.class_id ctx.class_unavailable
          slot.day slot.period_number then
        (false, some slot)
      else if ¬ allGroupTeachersAvailable c slot ginfos then
        (false, some slot)
      else groupBlockValid ctx ginfos c rest (some slot)

/-- Scoring loop of a block: total score, and the final bindings of the loop
variables `slot` and `score`. -/
def scoreBlockLoop (c : SchedulingConstraints) (lesson_id class_id : Nat)
    (teacher_ids : List (Option Nat)) (block_size : Nat) (difficulty_level : Int)
    (block : List TimeSlot) (py : Option TimeSlot × Option Int) :
    Int × (Option TimeSlot × Option Int) :=
  block.foldl
    (fun acc slot =>
      let score := calculate_slot_score slot lesson_id class_id teacher_ids c
        block_size 8 difficulty_level
      (acc.1 + score, (some slot, some score)))
    (0, py)

/-- A best-so-far block candidate (`best_score` starts at `-inf`, modelled by
`none`). -/
structure BestBlock where
  score : Frac
  slots : List TimeSlot
  day : String

/-- `avg_score > best_score` update with strict comparison (ties keep the
earlier candidate). -/
def updateBest (best : Option BestBlock) (avg : Frac) (block : List TimeSlot)
    (day : String) : Option BestBlock :=
  match best with
  | none => some ⟨avg, block, day⟩
  | some b => if Frac.lt b.score avg then some ⟨avg, block, day⟩ else best

/-- Best-block search of the grouped pattern phase: scan days not yet used,
validate and score each window, keep the strictly best average. -/
def groupFindBestBlock (ctx : LessonCtx) (ginfos : List GroupInfo)
    (c : SchedulingConstraints) (used_days : List String) (block_size : Nat)
    (py : Option TimeSlot × Option Int) :
    Option BestBlock × (Option TimeSlot × Option Int) :=
  let teacher_ids := ginfos.map (fun g => g.gtid)
  ctx.slots_by_day.foldl
    (fun acc dp =>
      if dp.1 ∈ used_days then acc
      else
        (windows dp.2 block_size).foldl
          (fun acc2 block =>
            let v := groupBlockValid ctx ginfos c block acc2.2.1
            if v.1 then
              let sc := scoreBlockLoop c ctx.lesson.id ctx.lesson.class_id teacher_ids
                block_size ctx.difficulty_level block (v.2, acc2.2.2)
              let avg : Frac := ⟨sc.1, (block.length : Int)⟩
              (updateBest acc2.1 avg block dp.1, sc.2)
            else (acc2.1, (v.2, acc2.2.2)))
          acc)
    (none, py)

/-- Add a day to the `used_days` set. -/
def addDay (used_days : List String) (day : String) : List String :=
  if day ∈ used_days then used_days else used_days ++ [day]

/-- The `group_rooms` / `rooms_ok` loop: resolve a room per group, failing if a
resolved room is no longer available. The room list is meaningful only when
the flag is `true` (the source `break`s with a partial list it never uses). -/
def computeGroupRooms (ctx : LessonCtx) (c : SchedulingConstraints)
    (slot : TimeSlot) : List GroupInfo → Bool × List (Option Nat)
  | [] => (true, [])
  | g :: rest =>
      let room_id := get_room_for_lesson ctx.lesson g.gtid ctx.rooms c slot.id
      match room_id with
      | some rid =>
          if ¬ c.is_room_available slot.id (some rid) then (false, [])
          else
            let r := computeGroupRooms ctx c slot rest
            (r.1, room_id :: r.2)
      | none =>
          let r := computeGroupRooms ctx c slot rest
          (r.1, room_id :: r.2)

/-- Loop-local state of the grouped pattern-phase assignment. -/
structure GLoop where
  st : RunState
  hours_assigned : Nat

/-- Slot-assignment loop of the grouped pattern phase (`for slot in
best_slots`): one entry per group, the class marked busy once per slot — this
is the correctly-indented path of the source. -/
def groupAssignSlots (ctx : LessonCtx) (ginfos : List GroupInfo)
    (first_gtid : Option Nat) (best_score : Frac) :
    List TimeSlot → GLoop → GLoop
  | [], s => s
  | slot :: rest, s =>
      if s.hours_assigned ≥ ctx.hours_needed then
        { s with st := { s.st with pySlot := some slot } }
      else
        let c := s.st.constraints
        let gr := computeGroupRooms ctx c slot ginfos
        if ¬ gr.1 then
          groupAssignSlots ctx ginfos first_gtid best_score rest
            { s with st := { s.st with pySlot := some slot } }
        else
          let st1 :=
            (ginfos.zip gr.2).foldl
              (fun st p =>
                let entry : TimetableEntry :=
                  ⟨ctx.timetable.id, slot.id, ctx.lesson.id, some p.1.group.id, p.2⟩
                { st with
                  entries := st.entries ++ [entry]
                  assigned_count := st.assigned_count + 1
                  constraints :=
                    (st.constraints.mark_teacher_busy slot.id p.1.gtid).mark_room_busy
                      slot.id p.2 })
              s.st
          let c1 := st1.constraints.mark_class_busy slot.id ctx.lesson.class_id
          let c2 := c1.add_lesson_assignment ctx.lesson.id slot.day slot.period_number
            ctx.lesson.class_id first_gtid ctx.difficulty_level
          let st2 := { st1 with constraints := c2, pySlot := some slot }
          let st3 :=
            if best_score.isNeg then
              { st2 with soft_violations := st2.soft_violations + 1 }
            else st2
          groupAssignSlots ctx ginfos first_gtid best_score rest
            ⟨st3, s.hours_assigned + 1⟩

/-- Loop state of the grouped pattern phase over the block-size list. -/
structure GPhase where
  st : RunState
  hours_assigned : Nat
  used_days : List String

/-- The grouped pattern phase (`for block_index, block_size in
enumerate(preferred_block_sizes)`): find the best block on an unused day,
assign it, record the day. Negative or zero block sizes would make the source
divide a zero-length block score by zero; the embedding uses `.toNat` on the
size (never reached with the patterns the claims exercise). -/
def groupPatternLoop (ctx : LessonCtx) (ginfos : List GroupInfo)
    (first_gtid : Option Nat) : List Int → GPhase → GPhase
  | [], s => s
  | block_size :: rest, s =>
      if s.hours_assigned ≥ ctx.hours_needed then s
      else
        let fb := groupFindBestBlock ctx ginfos s.st.constraints s.used_days
          block_size.toNat (s.st.pySlot, s.st.pyScore)
        let st0 := { s.st with pySlot := fb.2.1, pyScore := fb.2.2 }
        match fb.1 with
        | some best =>
            if best.slots ≠ [] then
              let g := groupAssignSlots ctx ginfos first_gtid best.score best.slots
                ⟨st0, s.hours_assigned⟩
              groupPatternLoop ctx ginfos first_gtid rest
                ⟨g.st, g.hours_assigned, addDay s.used_days best.day⟩
            else
              groupPatternLoop ctx ginfos first_gtid rest
                ⟨st0, s.hours_assigned, s.used_days⟩
        | none =>
            groupPatternLoop ctx ginfos first_gtid rest
              ⟨st0, s.hours_assigned, s.used_days⟩

/-- Candidate building of the grouped fallback ("regular strategy"): individual
slots on days not excluded by `used_days`, hard-checked, paired with scores. -/
def buildGroupCandidates (ctx : LessonCtx) (ginfos : List GroupInfo)
    (c : SchedulingConstraints) (used_days : List String)
    (py : Option TimeSlot × Option Int) :
    List (Int × TimeSlot) × (Option TimeSlot × Option Int) :=
  let teacher_ids := ginfos.map (fun g => g.gtid)
  ctx.slots_by_day.foldl
    (fun acc dp =>
      if ctx.preferred_block_sizes ≠ [] ∧ dp.1 ∈ used_days then acc
      else
        dp.2.foldl
          (fun acc2 slot =>
            let skip := (acc2.1, (some slot, acc2.2.2))
            if ¬ c.is_class_available slot.id ctx.lesson.class_id ctx.class_unavailable
                slot.day slot.period_number then skip
            else if ¬ allGroupTeachersAvailable c slot ginfos then skip
            else if c.would_exceed_consecutive_limit ctx.lesson.id slot.day
                slot.period_number ctx.max_consecutive_same_subject then skip
            else if c.would_exceed_max_hours_per_day ctx.lesson.id slot.day
                ctx.lesson.max_hours_per_day then skip
            else
              let score := calculate_slot_score slot ctx.lesson.id ctx.lesson.class_id
                teacher_ids c 1 8 ctx.difficulty_level
              (acc2.1 ++ [(score, slot)], (some slot, some score)))
          acc)
    ([], py)

/-- Candidate-assignment loop of the grouped fallback. Faithful to the
source's indentation: the `db.add(entry)` sits after the per-group loop, so
only the LAST group's entry is recorded per slot, only the last group's
teacher and room are marked busy, and neither `mark_class_busy` nor
`hours_assigned += 1` runs inside this loop (they follow it, once). `none`
models the `NameError` the source would raise with an empty group list. -/
def groupFallbackLoop (ctx : LessonCtx) (ginfos : List GroupInfo)
    (hours_assigned : Nat) :
    List (Int × TimeSlot) → RunState → Option RunState
  | [], st => some st
  | (score, slot) :: rest, st =>
      let st0 := { st with pySlot := some slot, pyScore := some score }
      if hours_assigned ≥ ctx.hours_needed then some st0
      else
        let c := st0.constraints
        if ¬ c.is_class_available slot.id ctx.lesson.class_id ctx.class_unavailable
            slot.day slot.period_number then
          groupFallbackLoop ctx ginfos hours_assigned rest st0
        else if ¬ allGroupTeachersAvailable c slot ginfos then
          groupFallbackLoop ctx ginfos hours_assigned rest st0
        else
          let gr := computeGroupRooms ctx c slot ginfos
          if ¬ gr.1 then groupFallbackLoop ctx ginfos hours_assigned rest st0
          else
            match (ginfos.zip gr.2).getLast? with
            | none => none
            | some lastp =>
                let entry : TimetableEntry :=
                  ⟨ctx.timetable.id, slot.id, ctx.lesson.id, some lastp.1.group.id,
                   lastp.2⟩
                let c1 := (c.mark_teacher_busy slot.id lastp.1.gtid).mark_room_busy
                  slot.id lastp.2
                let c2 := c1.add_lesson_assignment ctx.lesson.id slot.day
                  slot.period_number ctx.lesson.class_id lastp.1.gtid
                  ctx.difficulty_level
                groupFallbackLoop ctx ginfos hours_assigned rest
                  { st0 with
                    entries := st0.entries ++ [entry]
                    assigned_count := st0.assigned_count + 1
                    constraints := c2 }

/-- The grouped fallback as a whole: build candidates, run the (bugged) loop,
then execute the post-loop statements once, on the leaked bindings of `slot`
and `score` (`none` = `NameError` when they were never bound). -/
def groupFallback (ctx : LessonCtx) (ginfos : List GroupInfo) (s : GPhase) :
    Option GPhase := do
  let built := buildGroupCandidates ctx ginfos s.st.constraints s.used_days
    (s.st.pySlot, s.st.pyScore)
  let stA := { s.st with pySlot := built.2.1, pyScore := built.2.2 }
  let cands := sortDescBy (fun p => p.1) built.1
  let stB ← groupFallbackLoop ctx ginfos s.hours_assigned cands stA
  let slot ← stB.pySlot
  let score ← stB.pyScore
  let used2 :=
    if ctx.preferred_block_sizes ≠ [] then addDay s.used_days slot.day
    else s.used_days
  let stC :=
    { stB with constraints := stB.constraints.mark_class_busy slot.id ctx.lesson.class_id }
  let stD :=
    if score < 0 then { stC with soft_violations := stC.soft_violations + 1 }
    else stC
  return ⟨stD, s.hours_assigned + 1, used2⟩

/-- The whole grouped-lesson path: pattern phase, fallback when hours remain,
shortage accounting. -/
def processGrouped (ctx : LessonCtx) (ginfos : List GroupInfo) (st : RunState) :
    Option RunState := do
  let first_gtid : Option Nat :=
    match ginfos.head? with
    | some g => g.gtid
    | none => none
  let s0 : GPhase := ⟨st, 0, []⟩
  let s1 :=
    if ctx.preferred_block_sizes ≠ [] then
      groupPatternLoop ctx ginfos first_gtid ctx.preferred_block_sizes s0
    else s0
  let s2 ←
    if s1.hours_assigned < ctx.hours_needed then groupFallback ctx ginfos s1
    else pure s1
  if s2.hours_assigned < ctx.hours_needed then
    return { s2.st with
      hard_violations := s2.st.hard_violations + (ctx.hours_needed - s2.hours_assigned) }
  else
    return s2.st

/-- `[teacher_id] if teacher_id else []` as passed to `calculate_slot_score`
by the ungrouped path. -/
def singleTeacherIds (lesson : Lesson) : List (Option Nat) :=
  match lesson.teacher_id with
  | some tid => [some tid]
  | none => []

/-- Validity loop of an ungrouped block: class and (single) teacher available
at every slot; returns the final binding of the loop variable `slot`. -/
def ungroupedBlockValid (ctx : LessonCtx) (c : SchedulingConstraints) :
    List TimeSlot → Option TimeSlot → Bool × Option TimeSlot
  | [], last => (true, last)
  | slot :: rest, _ =>
      if ¬ c.is_class_available slot.id ctx.lesson.class_id ctx.class_unavailable
          slot.day slot.period_number then
        (false, some slot)
      else if ¬ c.is_teacher_available slot.id ctx.lesson.teacher_id
          ctx.teacher_unavailable slot.day slot.period_number then
        (false, some slot)
      else ungroupedBlockValid ctx c rest (some slot)

/-- The block-level max-hours check of the ungrouped paths:
`current_count + len(block) > (max_hours_per_day or float('inf'))` guarded by
`would_exceed_max_hours_per_day` (a `0` cap is falsy in Python and turns into
`inf`, so it never rejects). -/
def blockExceedsMaxHours (ctx : LessonCtx) (c : SchedulingConstraints)
    (block : List TimeSlot) : Bool :=
  match block with
  | [] => false
  | slot0 :: _ =>
      if c.would_exceed_max_hours_per_day ctx.lesson.id slot0.day
          ctx.lesson.max_hours_per_day then
        let current_count := c.get_lesson_day_count ctx.lesson.id slot0.day
        match ctx.lesson.max_hours_per_day with
        | some cap => cap ≠ 0 ∧ current_count + block.length > cap
        | none => false
      else false

/-- Best-block search of the ungrouped pattern phase. -/
def ungroupedFindBestBlock (ctx : LessonCtx) (c : SchedulingConstraints)
    (used_days : List String) (block_size : Nat)
    (py : Option TimeSlot × Option Int) :
    Option BestBlock × (Option TimeSlot × Option Int) :=
  ctx.slots_by_day.foldl
    (fun acc dp =>
      if dp.1 ∈ used_days then acc
      else
        (windows dp.2 block_size).foldl
          (fun acc2 block =>
            let v := ungroupedBlockValid ctx c block acc2.2.1
            if ¬ v.1 then (acc2.1, (v.2, acc2.2.2))
            else if blockExceedsMaxHours ctx c block then (acc2.1, (v.2, acc2.2.2))
            else
              let sc := scoreBlockLoop c ctx.lesson.id ctx.lesson.class_id
                (singleTeacherIds ctx.lesson) block_size ctx.difficulty_level block
                (v.2, acc2.2.2)
              let avg : Frac := ⟨sc.1, (block.length : Int)⟩
              (updateBest acc2.1 avg block dp.1, sc.2))
          acc)
    (none, py)

/-- Loop-local state of ungrouped block assignment. -/
structure UAssign where
  st : RunState
  hours_assigned : Nat
  block_assigned : Nat

/-- Assignment loop of an ungrouped block (`for slot in best_block`). -/
def ungroupedAssignBlock (ctx : LessonCtx) (best_score : Frac) :
    List TimeSlot → UAssign → UAssign
  | [], s => s
  | slot :: rest, s =>
      if s.hours_assigned ≥ ctx.hours_needed then
        { s with st := { s.st with pySlot := some slot } }
      else
        let c := s.st.constraints
        let room_id := get_room_for_lesson ctx.lesson ctx.lesson.teacher_id ctx.rooms
          c slot.id
        let room_blocked : Bool :=
          match room_id with
          | some rid => ¬ c.is_room_available slot.id (some rid)
          | none => false
        if room_blocked then
          ungroupedAssignBlock ctx best_score rest
            { s with st := { s.st with pySlot := some slot } }
        else
          let entry : TimetableEntry :=
            ⟨ctx.timetable.id, slot.id, ctx.lesson.id, none, room_id⟩
          let c1 :=
            ((c.mark_class_busy slot.id ctx.lesson.class_id).mark_teacher_busy slot.id
              ctx.lesson.teacher_id).mark_room_busy slot.id room_id
          let c2 := c1.add_lesson_assignment ctx.lesson.id slot.day slot.period_number
            ctx.lesson.class_id ctx.lesson.teacher_id ctx.difficulty_level
          let st2 :=
            { s.st with
              entries := s.st.entries ++ [entry]
              assigned_count := s.st.assigned_count + 1
              constraints := c2
              pySlot := some slot }
          let st3 :=
            if best_score.isNeg then
              { st2 with soft_violations := st2.soft_violations + 1 }
            else st2
          ungroupedAssignBlock ctx best_score rest
            ⟨st3, s.hours_assigned + 1, s.block_assigned + 1⟩

/-- Loop state of the ungrouped phases. -/
structure UPhase where
  st : RunState
  hours_assigned : Nat
  used_days : List String

/-- The ungrouped pattern phase: one best block per pattern block size, each
on a day not used by this lesson's earlier blocks. -/
def ungroupedPatternLoop (ctx : LessonCtx) : List Int → UPhase → UPhase
  | [], s => s
  | block_size :: rest, s =>
      if s.hours_assigned ≥ ctx.hours_needed then s
      else
        let fb := ungroupedFindBestBlock ctx s.st.constraints s.used_days
          block_size.toNat (s.st.pySlot, s.st.pyScore)
        let st0 := { s.st with pySlot := fb.2.1, pyScore := fb.2.2 }
        match fb.1 with
        | some best =>
            if best.slots ≠ [] then
              let a := ungroupedAssignBlock ctx best.score best.slots
                ⟨st0, s.hours_assigned, 0⟩
              let used2 :=
                if a.block_assigned > 0 then addDay s.used_days best.day
                else s.used_days
              ungroupedPatternLoop ctx rest ⟨a.st, a.hours_assigned, used2⟩
            else ungroupedPatternLoop ctx rest ⟨st0, s.hours_assigned, s.used_days⟩
        | none => ungroupedPatternLoop ctx rest ⟨st0, s.hours_assigned, s.used_days⟩

/-- Candidate blocks of the pattern-less "regular block strategy" (reached
only when `preferred_block_sizes` is empty, i.e. `hours_per_week = 0`): every
window of every size from `min(max_consecutive, remaining)` down to 1,
validated and scored (`block_sizes_to_try` is recomputed from the
`hours_assigned` value current while building, which this phase never
changes). -/
def regularBlocksBuild (ctx : LessonCtx) (c : SchedulingConstraints)
    (hours_assigned : Nat) (py : Option TimeSlot × Option Int) :
    List (Frac × List TimeSlot) × (Option TimeSlot × Option Int) :=
  let n := (min ctx.max_consecutive_same_subject
    ((ctx.hours_needed : Int) - (hours_assigned : Int))).toNat
  let block_sizes_to_try := (List.range n).reverse.map (fun k => k + 1)
  ctx.slots_by_day.foldl
    (fun acc dp =>
      (List.range dp.2.length).foldl
        (fun acc2 i =>
          block_sizes_to_try.foldl
            (fun acc3 block_size =>
              if i + block_size > dp.2.length then acc3
              else
                let block := (dp.2.drop i).take block_size
                let v := ungroupedBlockValid ctx c block acc3.2.1
                if ¬ v.1 then (acc3.1, (v.2, acc3.2.2))
                else if blockExceedsMaxHours ctx c block then (acc3.1, (v.2, acc3.2.2))
                else
                  let sc := scoreBlockLoop c ctx.lesson.id ctx.lesson.class_id
                    (singleTeacherIds ctx.lesson) block.length ctx.difficulty_level
                    block (v.2, acc3.2.2)
                  let avg : Frac := ⟨sc.1, (block.length : Int)⟩
                  (acc3.1 ++ [(avg, block)], sc.2))
            acc2)
        acc)
    ([], py)

/-- Assignment over the sorted candidate blocks of the regular block
strategy: re-validate, then assign slot by slot. -/
def regularBlocksAssign (ctx : LessonCtx) :
    List (Frac × List TimeSlot) → UPhase → UPhase
  | [], s => s
  | (avg_score, block) :: rest, s =>
      if s.hours_assigned ≥ ctx.hours_needed then s
      else
        let v := ungroupedBlockValid ctx s.st.constraints block s.st.pySlot
        let st0 := { s.st with pySlot := v.2 }
        if ¬ v.1 then regularBlocksAssign ctx rest { s with st := st0 }
        else
          let a := ungroupedAssignBlock ctx avg_score block
            ⟨st0, s.hours_assigned, 0⟩
          regularBlocksAssign ctx rest ⟨a.st, a.hours_assigned, s.used_days⟩

/-- Candidate building of the ungrouped individual pass. -/
def buildUngroupedCandidates (ctx : LessonCtx) (c : SchedulingConstraints)
    (used_days : List String) (relax_day_constraint : Bool)
    (py : Option TimeSlot × Option Int) :
    List (Int × TimeSlot) × (Option TimeSlot × Option Int) :=
  ctx.slots_by_day.foldl
    (fun acc dp =>
      if ctx.preferred_block_sizes ≠ [] ∧ dp.1 ∈ used_days ∧ ¬ relax_day_constraint
        then acc
      else
        dp.2.foldl
          (fun acc2 slot =>
            let skip := (acc2.1, (some slot, acc2.2.2))
            if ¬ c.is_class_available slot.id ctx.lesson.class_id ctx.class_unavailable
                slot.day slot.period_number then skip
            else if ¬ c.is_teacher_available slot.id ctx.lesson.teacher_id
                ctx.teacher_unavailable slot.day slot.period_number then skip
            else if c.would_exceed_consecutive_limit ctx.lesson.id slot.day
                slot.period_number ctx.max_consecutive_same_subject then skip
            else if c.would_exceed_max_hours_per_day ctx.lesson.id slot.day
                ctx.lesson.max_hours_per_day then skip
            else
              let score := calculate_slot_score slot ctx.lesson.id ctx.lesson.class_id
                (singleTeacherIds ctx.lesson) c 1 8 ctx.difficulty_level
              (acc2.1 ++ [(score, slot)], (some slot, some score)))
          acc)
    ([], py)

/-- Assignment loop of the ungrouped individual pass. -/
def ungroupedIndivLoop (ctx : LessonCtx) (relax_day_constraint : Bool) :
    List (Int × TimeSlot) → UPhase → UPhase
  | [], s => s
  | (score, slot) :: rest, s =>
      let st0 := { s.st with pySlot := some slot, pyScore := some score }
      if s.hours_assigned ≥ ctx.hours_needed then { s with st := st0 }
      else
        let c := st0.constraints
        if ¬ c.is_class_available slot.id ctx.lesson.class_id ctx.class_unavailable
            slot.day slot.period_number then
          ungroupedIndivLoop ctx relax_day_constraint rest { s with st := st0 }
        else if ¬ c.is_teacher_available slot.id ctx.lesson.teacher_id
            ctx.teacher_unavailable slot.day slot.period_number then
          ungroupedIndivLoop ctx relax_day_constraint rest { s with st := st0 }
        else
          let room_id := get_room_for_lesson ctx.lesson ctx.lesson.teacher_id
            ctx.rooms c slot.id
          let room_blocked : Bool :=
            match room_id with
            | some rid => ¬ c.is_room_available slot.id (some rid)
            | none => false
          if room_blocked then
            ungroupedIndivLoop ctx relax_day_constraint rest { s with st := st0 }
          else
            let entry : TimetableEntry :=
              ⟨ctx.timetable.id, slot.id, ctx.lesson.id, none, room_id⟩
            let c1 :=
              ((c.mark_class_busy slot.id ctx.lesson.class_id).mark_teacher_busy
                slot.id ctx.lesson.teacher_id).mark_room_busy slot.id room_id
            let c2 := c1.add_lesson_assignment ctx.lesson.id slot.day
              slot.period_number ctx.lesson.class_id ctx.lesson.teacher_id
              ctx.difficulty_level
            let used2 :=
              if ctx.preferred_block_sizes ≠ [] ∧ ¬ relax_day_constraint then
                addDay s.used_days slot.day
              else s.used_days
            let st2 :=
              { st0 with
                entries := st0.entries ++ [entry]
                assigned_count := st0.assigned_count + 1
                constraints := c2 }
            let st3 :=
              if score < 0 then { st2 with soft_violations := st2.soft_violations + 1 }
              else st2
            ungroupedIndivLoop ctx relax_day_constraint rest
              ⟨st3, s.hours_assigned + 1, used2⟩

/-- The whole ungrouped-lesson path: block phase (pattern-based or regular),
individual pass with the relaxed-day fallback, shortage accounting. -/
def processUngrouped (ctx : LessonCtx) (st : RunState) : RunState :=
  let s0 : UPhase := ⟨st, 0, []⟩
  let s1 :=
    if ctx.use_double_periods ∨ ctx.preferred_block_sizes ≠ [] then
      if ctx.preferred_block_sizes ≠ [] then
        ungroupedPatternLoop ctx ctx.preferred_block_sizes s0
      else
        let built := regularBlocksBuild ctx s0.st.constraints s0.hours_assigned
          (s0.st.pySlot, s0.st.pyScore)
        let stA := { s0.st with pySlot := built.2.1, pyScore := built.2.2 }
        let cands := sortDescByFrac
          (fun p => p.1.addInt (20 * (p.2.length : Int))) built.1
        regularBlocksAssign ctx cands ⟨stA, s0.hours_assigned, s0.used_days⟩
    else s0
  let s2 :=
    if s1.hours_assigned < ctx.hours_needed then
      let relax_day_constraint :=
        ctx.preferred_block_sizes ≠ [] ∧ s1.hours_assigned = 0
      let built := buildUngroupedCandidates ctx s1.st.constraints s1.used_days
        relax_day_constraint (s1.st.pySlot, s1.st.pyScore)
      let stA := { s1.st with pySlot := built.2.1, pyScore := built.2.2 }
      let cands := sortDescBy (fun p => p.1) built.1
      ungroupedIndivLoop ctx relax_day_constraint cands
        ⟨stA, s1.hours_assigned, s1.used_days⟩
    else s1
  if s2.hours_assigned < ctx.hours_needed then
    { s2.st with
      hard_violations := s2.st.hard_violations + (ctx.hours_needed - s2.hours_assigned) }
  else s2.st

/-- `has_groups`: `lesson.num_groups and lesson.num_groups > 1 and
len(lesson.lesson_groups) > 0`. -/
def hasGroups (lesson : Lesson) : Bool :=
  (match lesson.num_groups with | some n => decide (n > 1) | none => false) &&
    decide (lesson.lesson_groups ≠ [])

/-- Per-lesson body of the main loop of `schedule_lessons_improved`;
`none` models an uncaught exception. -/
def processLesson (timetable : Timetable) (rooms : List Room)
    (slots_by_day : List (String × List TimeSlot))
    (max_consecutive_same_subject : Int) (st : RunState) (lesson : Lesson) :
    Option RunState :=
  let difficulty_level :=
    match lesson.subject with
    | some s => s.difficulty_level
    | none => 5
  let class_unavailable :=
    match lesson.class_ with
    | some cls =>
        if cls.unavailable_slots ≠ [] then
          normalize_unavailable_slots cls.unavailable_slots
        else []
    | none => []
  let teacher_unavailable :=
    match lesson.teacher with
    | some t =>
        if t.unavailable_slots ≠ [] then normalize_unavailable_slots t.unavailable_slots
        else []
    | none => []
  let hours_needed := lesson.hours_per_week
  match resolvePattern lesson hours_needed max_consecutive_same_subject with
  | none => none
  | some pc =>
      let ctx : LessonCtx :=
        ⟨timetable, rooms, slots_by_day, max_consecutive_same_subject, lesson,
         class_unavailable, teacher_unavailable, difficulty_level, hours_needed,
         pc.preferred_block_sizes, pc.use_double_periods⟩
      if hasGroups lesson then
        let ginfos := lesson.lesson_groups.map
          (fun g =>
            ⟨g,
             (match g.teacher_id with
              | some tid => some tid
              | none => lesson.teacher_id),
             (match g.teacher with
              | some t =>
                  if t.unavailable_slots ≠ [] then
                    normalize_unavailable_slots t.unavailable_slots
                  else teacher_unavailable
              | none => teacher_unavailable)⟩)
        processGrouped ctx ginfos st
      else some (processUngrouped ctx st)

/-- `schedule_lessons_improved(timetable, lessons, time_slots, rooms)`:
filter breaks, group and sort slots by day, sort lessons by priority, then
process each lesson in order. `none` models an uncaught exception. -/
def schedule_lessons_improved (timetable : Timetable) (lessons : List Lesson)
    (time_slots : List TimeSlot) (rooms : List Room) : Option RunState :=
  let active_slots := time_slots.filter (fun slot => ¬ slot.is_break)
  let grouped := active_slots.foldl (fun d slot => dictAppend d slot.day slot) []
  let slots_by_day := grouped.map
    (fun dp => (dp.1, sortAscBy (fun s => s.period_number) dp.2))
  let max_consecutive_same_subject : Int :=
    match timetable.algorithm_parameters with
    | some ps => (dictLookup ps "max_consecutive_same_subject").getD 2
    | none => 2
  let sorted_lessons := sortDescBy lesson_priority lessons
  sorted_lessons.foldlM
    (processLesson timetable rooms slots_by_day max_consecutive_same_subject)
    RunState.start

/-! ## Pattern extractor (routes/timetables._save_distribution_patterns) -/

/-- `defaultdict(list)` append with natural-number keys (for grouping entries
by lesson id). -/
def natDictAppend {α : Type} (d : List (Nat × List α)) (k : Nat) (v : α) :
    List (Nat × List α) :=
  match d with
  | [] => [(k, [v])]
  | (k2, vs) :: rest =>
      if k2 = k then (k2, vs ++ [v]) :: rest else (k2, vs) :: natDictAppend rest k v

/-- Resolve `entry.time_slot` through the slot list. -/
def findSlot (slots : List TimeSlot) (sid : Nat) : Option TimeSlot :=
  slots.find? (fun s => s.id = sid)

/-- The per-lesson day grouping of the extractor: every entry (with a
resolvable time slot) appends its slot's period to its day's list. -/
def entriesByDay (slots : List TimeSlot) (lesson_entries : List TimetableEntry) :
    List (String × List Int) :=
  lesson_entries.foldl
    (fun acc e =>
      match findSlot slots e.time_slot_id with
      | some slot => dictAppend acc slot.day slot.period_number
      | none => acc)
    []

/-- The extractor's per-lesson pattern: the number of ENTRIES per day (not the
number of distinct slots), sorted descending and joined by `+`; `none` when
the lesson has no countable entries. -/
def extractLessonPattern (slots : List TimeSlot)
    (lesson_entries : List TimetableEntry) : Option String :=
  let block_sizes := (entriesByDay slots lesson_entries).map
    (fun dp => (dp.2.length : Int))
  if block_sizes ≠ [] then
    some (intercalatePlus ((sortDescBy id block_sizes).map toString))
  else none

/-- `_save_distribution_patterns` without the persistence plumbing: group the
timetable's entries by lesson id (in first appearance order) and compute each
lesson's extracted pattern. -/
def save_distribution_patterns (slots : List TimeSlot)
    (entries : List TimetableEntry) : List (Nat × Option String) :=
  let entries_by_lesson :=
    entries.foldl (fun acc e => natDictAppend acc e.lesson_id e) []
  entries_by_lesson.map (fun p => (p.1, extractLessonPattern slots p.2))

/-! ## Driver statistics (routes/timetables.generate_timetable) -/

/-- `timetable.soft_constraint_score = 100 - (hard_violations * 10)` — the
driver stores this value as-is, without clamping. -/
def soft_constraint_score (hard_violations : Int) : Int :=
  100 - hard_violations * 10

/-! ## CP-SAT scheduler (cpsat_scheduler.schedule_with_cpsat)

The CP-SAT model is embedded semantically: a candidate solution is a Boolean
assignment over the decision variables `assign[(l_idx, g_idx, s_idx)]`
(`g_idx = none` for ungrouped lessons), and each family of `model.Add(...)`
calls becomes a decidable satisfaction check over that assignment. The group
rows fetched by the `lesson_groups_by_lesson` query are taken from
`lesson.lesson_groups` (the same rows). `none` models the `ValueError`
raised by `int(day_num_str)` on a non-numeric unavailability key. -/

/-- A candidate CP-SAT solution. -/
def Assign : Type := Nat → Option Nat → Nat → Bool

/-- Input snapshot of `schedule_with_cpsat` (the rows it queries). -/
structure CpsatInput where
  timetable_id : Nat
  lessons : List Lesson
  classes : List Class
  teachers : List Teacher
  time_slots : List TimeSlot

/-- The group index used for the "count once" variable of a lesson:
`some 0` when it has groups, `none` otherwise. -/
def gsel (lesson : Lesson) : Option Nat :=
  if lesson.lesson_groups ≠ [] then some 0 else none

/-- CONSTRAINT 0: all groups of a multi-group lesson share every slot
assignment. -/
def cpsatGroupSyncOk (inp : CpsatInput) (a : Assign) : Bool :=
  inp.lessons.enum.all (fun lp =>
    let groups := lp.2.lesson_groups
    if groups.length > 1 then
      (List.range inp.time_slots.length).all (fun s_idx =>
        (List.range groups.length).all (fun g_idx =>
          g_idx = 0 ∨ a lp.1 (some 0) s_idx = a lp.1 (some g_idx) s_idx))
    else true)

/-- CONSTRAINT 1: every lesson is assigned exactly `hours_per_week` slots
(counted on group 0 for grouped lessons). -/
def cpsatHoursOk (inp : CpsatInput) (a : Assign) : Bool :=
  inp.lessons.enum.all (fun lp =>
    ((List.range inp.time_slots.length).filter
      (fun s_idx => a lp.1 (gsel lp.2) s_idx)).length = lp.2.hours_per_week)

/-- CONSTRAINT 2: at most one lesson per class per slot. -/
def cpsatClassExclusiveOk (inp : CpsatInput) (a : Assign) : Bool :=
  inp.classes.all (fun cls =>
    (List.range inp.time_slots.length).all (fun s_idx =>
      ((inp.lessons.enum.filter (fun lp => lp.2.class_id = cls.id)).filter
        (fun lp => a lp.1 (gsel lp.2) s_idx)).length ≤ 1))

/-- The assignment variables belonging to a teacher at one slot index
(each matching group of a grouped lesson, or the lesson itself). -/
def teacherVarsAt (teacher : Teacher) (lessons : List Lesson) (s_idx : Nat) :
    List (Nat × Option Nat × Nat) :=
  lessons.enum.foldl
    (fun acc lp =>
      let groups := lp.2.lesson_groups
      if groups ≠ [] then
        acc ++ groups.enum.filterMap (fun gp =>
          if gp.2.teacher_id = some teacher.id then some (lp.1, some gp.1, s_idx)
          else none)
      else if lp.2.teacher_id = some teacher.id then acc ++ [(lp.1, none, s_idx)]
      else acc)
    []

/-- CONSTRAINT 3: at most one lesson per teacher per slot. -/
def cpsatTeacherExclusiveOk (inp : CpsatInput) (a : Assign) : Bool :=
  inp.teachers.all (fun teacher =>
    (List.range inp.time_slots.length).all (fun s_idx =>
      ((teacherVarsAt teacher inp.lessons s_idx).filter
        (fun v => a v.1 v.2.1 v.2.2)).length ≤ 1))

/-- `day_number_map` of the CP-SAT scheduler (uppercase day names). -/
def day_number_map : List (String × Int) :=
  [("MONDAY", 1), ("TUESDAY", 2), ("WEDNESDAY", 3), ("THURSDAY", 4),
   ("FRIDAY", 5), ("SATURDAY", 6), ("SUNDAY", 7)]

/-- `day_number_map.get(str(slot.day.value).upper(), 0)`. -/
def slotDayNum (slot : TimeSlot) : Int :=
  (dictLookup day_number_map (strToUpper slot.day)).getD 0

/-- CONSTRAINT 4 variable collection for one teacher: the `(l, g, s)` triples
forced to zero by the teacher's unavailability; `none` when `int(day_num_str)`
raises on a non-numeric key (e.g. a day name). -/
def teacherUnavailVars (teacher : Teacher) (lessons : List Lesson)
    (slots : List TimeSlot) : Option (List (Nat × Option Nat × Nat)) :=
  if teacher.unavailable_slots = [] then some []
  else
    teacher.unavailable_slots.foldlM
      (fun acc kv => do
        let day_num ← pyInt kv.1
        let blocked := slots.enum.foldl
          (fun acc2 sp =>
            if slotDayNum sp.2 = day_num ∧ sp.2.period_number ∈ kv.2 then
              acc2 ++ lessons.enum.foldl
                (fun acc3 lp =>
                  let groups := lp.2.lesson_groups
                  if groups ≠ [] then
                    acc3 ++ groups.enum.filterMap (fun gp =>
                      if gp.2.teacher_id = some teacher.id then
                        some (lp.1, some gp.1, sp.1)
                      else none)
                  else if lp.2.teacher_id = some teacher.id then
                    acc3 ++ [(lp.1, none, sp.1)]
                  else acc3)
                []
            else acc2)
          []
        return acc ++ blocked)
      []

/-- CONSTRAINT 4 over all teachers. -/
def cpsatTeacherUnavailVars (inp : CpsatInput) :
    Option (List (Nat × Option Nat × Nat)) :=
  inp.teachers.foldlM
    (fun acc teacher => do
      let vs ← teacherUnavailVars teacher inp.lessons inp.time_slots
      return acc ++ vs)
    []

/-- CONSTRAINT 5: for each class with a truthy `max_hours_per_day`, the
variables at slots whose `period_number` exceeds the cap (group 0 only for
grouped lessons, exactly as the source adds them). -/
def cpsatClassCapVars (inp : CpsatInput) : List (Nat × Option Nat × Nat) :=
  inp.classes.flatMap
    (fun cls =>
      match cls.max_hours_per_day with
      | none => []
      | some class_max_hours =>
          if class_max_hours = 0 then []
          else
            inp.time_slots.enum.flatMap
              (fun sp =>
                if sp.2.period_number > class_max_hours then
                  inp.lessons.enum.filterMap (fun lp =>
                    if lp.2.class_id = cls.id then some (lp.1, gsel lp.2, sp.1)
                    else none)
                else []))

/-- CONSTRAINT 6 variable collection for one class (unavailable slots),
with the same `int(...)`-may-raise parsing as constraint 4. -/
def classUnavailVars (cls : Class) (lessons : List Lesson)
    (slots : List TimeSlot) : Option (List (Nat × Option Nat × Nat)) :=
  if cls.unavailable_slots = [] then some []
  else
    cls.unavailable_slots.foldlM
      (fun acc kv => do
        let day_num ← pyInt kv.1
        let blocked := slots.enum.foldl
          (fun acc2 sp =>
            if slotDayNum sp.2 = day_num ∧ sp.2.period_number ∈ kv.2 then
              acc2 ++ lessons.enum.filterMap (fun lp =>
                if lp.2.class_id = cls.id then some (lp.1, gsel lp.2, sp.1)
                else none)
            else acc2)
          []
        return acc ++ blocked)
      []

/-- CONSTRAINT 6 over all classes. -/
def cpsatClassUnavailVars (inp : CpsatInput) :
    Option (List (Nat × Option Nat × Nat)) :=
  inp.classes.foldlM
    (fun acc cls => do
      let vs ← classUnavailVars cls inp.lessons inp.time_slots
      return acc ++ vs)
    []

/-- All variables in a forced-zero list are indeed zero. -/
def varsAllZero (a : Assign) (vars : List (Nat × Option Nat × Nat)) : Bool :=
  vars.all (fun v => ¬ a v.1 v.2.1 v.2.2)

/-- Satisfaction of the full CP-SAT model by an assignment; `none` models the
`ValueError` raised while building constraints 4 or 6. A returned solution of
the actual solver satisfies exactly these checks. -/
def cpsatModelOk (inp : CpsatInput) (a : Assign) : Option Bool := do
  let tu ← cpsatTeacherUnavailVars inp
  let cu ← cpsatClassUnavailVars inp
  return cpsatGroupSyncOk inp a && cpsatHoursOk inp a &&
    cpsatClassExclusiveOk inp a && cpsatTeacherExclusiveOk inp a &&
    varsAllZero a tu && varsAllZero a (cpsatClassCapVars inp) && varsAllZero a cu

/-- Solution extraction: one entry per group per assigned slot for grouped
lessons (tested on group 0), a single roomless entry otherwise. -/
def cpsatExtractEntries (inp : CpsatInput) (a : Assign) : List TimetableEntry :=
  inp.lessons.enum.flatMap
    (fun lp =>
      let groups := lp.2.lesson_groups
      inp.time_slots.enum.flatMap
        (fun sp =>
          if groups ≠ [] then
            if a lp.1 (some 0) sp.1 then
              groups.map (fun lg =>
                ⟨inp.timetable_id, sp.2.id, lp.2.id, some lg.id, none⟩)
            else []
          else if a lp.1 none sp.1 then
            [⟨inp.timetable_id, sp.2.id, lp.2.id, none, none⟩]
          else []))

/-! ## Observation helpers for the testable properties -/

/-- The class of the lesson with a given id. -/
def lessonClassOf (lessons : List Lesson) (lesson_id : Nat) : Option Nat :=
  (lessons.find? (fun l => l.id = lesson_id)).map (fun l => l.class_id)

/-- The distinct lessons of one class having an entry at one slot (P1). -/
def classSlotLessons (entries : List TimetableEntry) (lessons : List Lesson)
    (class_id slot_id : Nat) : List Nat :=
  ((entries.filter (fun e =>
    e.time_slot_id = slot_id ∧ lessonClassOf lessons e.lesson_id = some class_id)).map
    (fun e => e.lesson_id)).dedup

/-- The entries of one lesson at one slot (P4). -/
def groupEntriesAt (entries : List TimetableEntry) (lesson_id slot_id : Nat) :
    List TimetableEntry :=
  entries.filter (fun e => e.lesson_id = lesson_id ∧ e.time_slot_id = slot_id)

/-- The number of distinct slots at which a lesson appears (P5). -/
def distinctSlotsOf (entries : List TimetableEntry) (lesson_id : Nat) : Nat :=
  ((entries.filter (fun e => e.lesson_id = lesson_id)).map
    (fun e => e.time_slot_id)).dedup.length

/-- The period numbers (through a slot list) at which a lesson appears (P7). -/
def lessonPeriods (slots : List TimeSlot) (entries : List TimetableEntry)
    (lesson_id : Nat) : List Int :=
  (entries.filter (fun e => e.lesson_id = lesson_id)).filterMap
    (fun e => (findSlot slots e.time_slot_id).map (fun s => s.period_number))

/-! ## Concrete snapshots used by the counterexamples and witnesses -/

/-- A difficulty-5 subject with no default pattern and no room requirement. -/
def subjMath : Subject := ⟨"Math", 5, none, none⟩

/-- One class, default daily cap 8, no unavailability. -/
def classB : Class := ⟨1, "5A", some 8, none, []⟩

/-- Teacher 11, fully available. -/
def teacherB1 : Teacher := ⟨11, [], none⟩

/-- Teacher 12, unavailable Monday period 2. -/
def teacherB2 : Teacher := ⟨12, [("monday", [2])], none⟩

/-- Teacher 13, fully available. -/
def teacherB3 : Teacher := ⟨13, [], none⟩

/-- Teacher 12 without unavailability. -/
def teacherA2 : Teacher := ⟨12, [], none⟩

/-- Monday, periods 1..3, no breaks. -/
def slotB1 : TimeSlot := ⟨101, "monday", 1, false⟩

/-- Monday period 2. -/
def slotB2 : TimeSlot := ⟨102, "monday", 2, false⟩

/-- Monday period 3. -/
def slotB3 : TimeSlot := ⟨103, "monday", 3, false⟩

/-- Tuesday period 1. -/
def slotE3 : TimeSlot := ⟨201, "tuesday", 1, false⟩

/-- Tuesday period 2. -/
def slotE4 : TimeSlot := ⟨202, "tuesday", 2, false⟩

/-- A timetable with no algorithm parameters (so
`max_consecutive_same_subject = 2`). -/
def ttB : Timetable := ⟨1, none⟩

/-- Snapshot B: a 2-hour two-group lesson with pattern "2" whose second group
teacher is unavailable Monday period 2 (forcing the grouped fallback), plus a
1-hour ungrouped lesson of the same class. -/
def lessonB1 : Lesson :=
  ⟨21, 1, some classB, some subjMath, none, none, 2, some 2, none,
   [⟨31, "G1", some 11, some teacherB1⟩, ⟨32, "G2", some 12, some teacherB2⟩],
   [("user_distribution_pattern", "2")]⟩

/-- Snapshot B's second lesson: ungrouped, teacher 13, one hour. -/
def lessonB2 : Lesson :=
  ⟨22, 1, some classB, some subjMath, some 13, some teacherB3, 1, some 1, none, [], []⟩

/-- The heuristic run on snapshot B (Monday periods 1..3, no rooms). -/
def runB : Option RunState :=
  schedule_lessons_improved ttB [lessonB1, lessonB2] [slotB1, slotB2, slotB3] []

/-- Snapshot A: a 2-hour two-group lesson with pattern "1+1" on a one-day week
(the second pattern block cannot land on a distinct day, so the fallback's
post-loop `hours_assigned += 1` runs without any new entry). -/
def lessonA : Lesson :=
  ⟨21, 1, some classB, some subjMath, none, none, 2, some 2, none,
   [⟨31, "G1", some 11, some teacherB1⟩, ⟨32, "G2", some 12, some teacherA2⟩],
   [("user_distribution_pattern", "1+1")]⟩

/-- The heuristic run on snapshot A (Monday periods 1..2, no rooms). -/
def runA : Option RunState :=
  schedule_lessons_improved ttB [lessonA] [slotB1, slotB2] []

/-- A class with `max_hours_per_day = 1`. -/
def classC1 : Class := ⟨1, "5A", some 1, none, []⟩

/-- Snapshot C: a plain 2-hour lesson of the capped class. -/
def lessonC : Lesson :=
  ⟨21, 1, some classC1, some subjMath, some 11, some teacherB1, 2, some 1, none, [], []⟩

/-- The heuristic run on snapshot C (Monday periods 1..2, no rooms). -/
def runC : Option RunState :=
  schedule_lessons_improved ttB [lessonC] [slotB1, slotB2] []

/-- Snapshot D: a 2-hour two-group lesson with pattern "2", schedulable as one
Monday block — every slot then carries one entry per group. -/
def lessonD : Lesson :=
  ⟨21, 1, some classB, some subjMath, none, none, 2, some 2, none,
   [⟨31, "G1", some 11, some teacherB1⟩, ⟨32, "G2", some 12, some teacherA2⟩],
   [("user_distribution_pattern", "2")]⟩

/-- The heuristic run on snapshot D (Monday periods 1..2, no rooms). -/
def runD : Option RunState :=
  schedule_lessons_improved ttB [lessonD] [slotB1, slotB2] []

/-- Snapshot E: an ungrouped 3-hour lesson with pattern "2+1" over a two-day
week — the pattern is realisable and the round trip succeeds. -/
def lessonE : Lesson :=
  ⟨21, 1, some classB, some subjMath, some 11, some teacherB1, 3, some 1, none, [],
   [("user_distribution_pattern", "2+1")]⟩

/-- The slots of snapshot E. -/
def slotsE : List TimeSlot := [slotB1, slotB2, slotE3, slotE4]

/-- The heuristic run on snapshot E. -/
def runE : Option RunState :=
  schedule_lessons_improved ttB [lessonE] slotsE []

/-- CP-SAT witness input: one capped class (cap 1), one 1-hour lesson,
Monday periods 1..2. -/
def cpsatInpW : CpsatInput := ⟨1, [lessonC], [classC1], [teacherB1], [slotB1, slotB2]⟩

/-- CP-SAT witness assignment: the lesson sits at slot index 0 (period 1). -/
def cpsatAW : Assign := fun l g s => l == 0 && g == none && s == 0

/-- The entries of the heuristic run on snapshot E. -/
def entriesE : List TimetableEntry :=
  [⟨1, 101, 21, none, none⟩, ⟨1, 102, 21, none, none⟩, ⟨1, 201, 21, none, none⟩]

/-- Modelled from the spec: the difficulty 4–6 row of the
difficulty-vs-time-of-day table exactly as claim C8 reads it (+15 for periods
1–2, +10 for periods 3–5, −10 for period 6, −10 for periods ≥7). -/
def specMediumDifficultyContribution (period : Int) : Int :=
  if period ≤ 2 then 15 else if period ≤ 5 then 10 else -10

/-! ## Theorems for the claims -/

/-- C10: a lesson with no assigned teacher is never blocked by teacher
constraints — `is_teacher_available` returns `true` for a `None` teacher
regardless of occupancy and unavailability data, and `mark_teacher_busy`
with a `None` teacher leaves the tracker unchanged. -/
theorem none_teacher_never_blocks (c : SchedulingConstraints) (slot_id : Nat)
    (unav : List (String × List Int)) (day : String) (period : Int) :
    c.is_teacher_available slot_id none unav day period = true ∧
    c.mark_teacher_busy slot_id none = c :=
  ⟨rfl, rfl⟩

/-- C7 counterexample: at 11 violations the driver stores `-10`, not the
clamped `max(0, 100 − 10·11) = 0` the claim asserts. -/
theorem soft_score_negative_at_eleven :
    soft_constraint_score 11 = -10 ∧
    soft_constraint_score 11 ≠ max 0 (100 - 10 * 11) := by
  decide

/-- C7 (amended): the driver stores the unclamped `100 − 10·violations`, which
is negative as soon as the violation count reaches 11. -/
theorem soft_score_unclamped (violations : Int) :
    soft_constraint_score violations = 100 - 10 * violations ∧
    (11 ≤ violations → soft_constraint_score violations < 0) := by
  unfold soft_constraint_score
  constructor
  · ring
  · intro h
    omega

/-- C7 witness: the amended statement evaluated at 11 violations. -/
theorem soft_score_unclamped_witness :
    soft_constraint_score 11 = 100 - 10 * 11 ∧ soft_constraint_score 11 < 0 :=
  ⟨(soft_score_unclamped 11).1, (soft_score_unclamped 11).2 (by decide)⟩

/-- C8 counterexample: for a difficulty-5 lesson at period 6 the code adds
+10 (its middle band runs through period 6), while the spec's table row says
−10. -/
theorem difficulty_table_period_six :
    difficultyTimeScore 5 6 = 10 ∧ specMediumDifficultyContribution 6 = -10 ∧
    difficultyTimeScore 5 6 ≠ specMediumDifficultyContribution 6 := by
  decide

/-- C8 (amended): for difficulty 4–6 the contribution is +15 for periods ≤2,
+10 for periods 3–6 (period 6 included), and −10 only from period 7 on; on a
fresh tracker with no teachers the whole slot score is
`100 + contribution + (10 − period)·2`. -/
theorem difficulty_mid_band (d p : Int) (h4 : 4 ≤ d) (h6 : d ≤ 6) :
    (p ≤ 2 → difficultyTimeScore d p = 15) ∧
    (3 ≤ p → p ≤ 6 → difficultyTimeScore d p = 10) ∧
    (7 ≤ p → difficultyTimeScore d p = -10) ∧
    (∀ (slot : TimeSlot) (lid cid : Nat), slot.period_number = p →
      calculate_slot_score slot lid cid [] SchedulingConstraints.init 1 8 d =
        100 + difficultyTimeScore d p + (10 - p) * 2) := by
  refine ⟨?_, ?_, ?_, ?_⟩
  · intro hp
    unfold difficultyTimeScore
    split_ifs <;> omega
  · intro hp3 hp6
    unfold difficultyTimeScore
    split_ifs <;> omega
  · intro hp7
    unfold difficultyTimeScore
    split_ifs <;> omega
  · intro slot lid cid hp
    simp only [calculate_slot_score, SchedulingConstraints.init,
      SchedulingConstraints.get_lesson_day_count,
      SchedulingConstraints.would_be_consecutive,
      SchedulingConstraints.get_class_day_count,
      SchedulingConstraints.get_teacher_day_count,
      SchedulingConstraints.get_consecutive_difficulty_penalty,
      SchedulingConstraints.get_class_daily_difficulty, hp]
    norm_num

/-- C8 witness: the amended statement evaluated at difficulty 5 and periods
1, 4, 6, 7, plus the slot-score decomposition at Monday period 2. -/
theorem difficulty_mid_band_witness :
    difficultyTimeScore 5 1 = 15 ∧ difficultyTimeScore 5 4 = 10 ∧
    difficultyTimeScore 5 6 = 10 ∧ difficultyTimeScore 5 7 = -10 ∧
    calculate_slot_score slotB2 21 1 [] SchedulingConstraints.init 1 8 5 =
      100 + difficultyTimeScore 5 2 + (10 - 2) * 2 :=
  ⟨(difficulty_mid_band 5 1 (by decide) (by decide)).1 (by decide),
   (difficulty_mid_band 5 4 (by decide) (by decide)).2.1 (by decide) (by decide),
   (difficulty_mid_band 5 6 (by decide) (by decide)).2.1 (by decide) (by decide),
   (difficulty_mid_band 5 7 (by decide) (by decide)).2.2.1 (by decide),
   (difficulty_mid_band 5 2 (by decide) (by decide)).2.2.2 slotB2 21 1 rfl⟩

/-- C9: the heuristic scheduler is deterministic — two runs on identical
inputs produce identical entry lists, assigned counts and violation counts. -/
theorem heuristic_deterministic (tt1 tt2 : Timetable) (ls1 ls2 : List Lesson)
    (ts1 ts2 : List TimeSlot) (rs1 rs2 : List Room)
    (htt : tt1 = tt2) (hls : ls1 = ls2) (hts : ts1 = ts2) (hrs : rs1 = rs2) :
    (schedule_lessons_improved tt1 ls1 ts1 rs1).map
        (fun st => (st.entries, st.assigned_count, st.hard_violations)) =
      (schedule_lessons_improved tt2 ls2 ts2 rs2).map
        (fun st => (st.entries, st.assigned_count, st.hard_violations)) := by
  subst htt hls hts hrs
  rfl

/-- C9 witness: determinism instantiated on snapshot B. -/
theorem heuristic_deterministic_witness :
    (schedule_lessons_improved ttB [lessonB1, lessonB2] [slotB1, slotB2, slotB3] []).map
        (fun st => (st.entries, st.assigned_count, st.hard_violations)) =
      (schedule_lessons_improved ttB [lessonB1, lessonB2] [slotB1, slotB2, slotB3] []).map
        (fun st => (st.entries, st.assigned_count, st.hard_violations)) :=
  heuristic_deterministic ttB ttB [lessonB1, lessonB2] [lessonB1, lessonB2]
    [slotB1, slotB2, slotB3] [slotB1, slotB2, slotB3] [] [] rfl rfl rfl rfl

/-- C1: on snapshot B the heuristic run places TWO different lessons of class
1 at slot 101 — the grouped fallback adds entries without marking the class
busy inside its candidate loop, so lesson 22 is later placed on top of lesson
21's slot. -/
theorem heuristic_double_books_class :
    runB.map (fun st => classSlotLessons st.entries [lessonB1, lessonB2] 1 101) =
      some [21, 22] ∧
    ¬ ([21, 22] : List Nat).length ≤ 1 := by
  constructor
  · rfl
  · decide

/-- C3: on snapshot B, lesson 21 has 2 groups, yet at slot 101 exactly one
entry exists (group 32): the grouped fallback adds only the last group's
entry. -/
theorem grouped_fallback_single_group_entry :
    lessonB1.num_groups = some 2 ∧
    runB.map
        (fun st => (groupEntriesAt st.entries 21 101).map (fun e => e.lesson_group_id)) =
      some [some 32] := by
  constructor
  · rfl
  · rfl

/-- C4: on snapshot A, lesson 21 (2 hours per week) appears at exactly one
distinct slot while the run reports zero shortage — the fallback's post-loop
`hours_assigned += 1` counts an hour that no entry backs. -/
theorem grouped_fallback_hour_accounting_gap :
    lessonA.hours_per_week = 2 ∧
    runA.map (fun st => (distinctSlotsOf st.entries 21, st.hard_violations)) =
      some (1, 0) ∧
    (1 : Nat) ≠ 2 - 0 := by
  refine ⟨rfl, ?_, by decide⟩
  rfl

/-- C2 counterexample: `is_class_available` consults no daily cap at all (it
answers `true` at period 2 for the cap-1 class), and the heuristic run on
snapshot C emits entries at periods 1 AND 2 although the class's
`max_hours_per_day` is 1. -/
theorem heuristic_ignores_class_cap :
    SchedulingConstraints.init.is_class_available 102 1 [] "monday" 2 = true ∧
    classC1.max_hours_per_day = some 1 ∧
    runC.map (fun st => lessonPeriods [slotB1, slotB2] st.entries 21) =
      some [1, 2] := by
  refine ⟨rfl, rfl, ?_⟩
  rfl

/-- C5 counterexample: on snapshot D the grouped lesson (2 groups, pattern
"2") is scheduled exactly as requested with no shortage, yet the extractor
counts every slot once per group and reports "4". -/
theorem pattern_roundtrip_fails_for_grouped :
    dictLookup lessonD.extra_metadata "user_distribution_pattern" = some "2" ∧
    runD.map
        (fun st => (st.hard_violations, save_distribution_patterns [slotB1, slotB2] st.entries)) =
      some (0, [(21, some "4")]) ∧
    some "4" ≠ some "2" := by
  refine ⟨rfl, ?_, by decide⟩
  rfl

/-- C5 (amended): for an UNGROUPED lesson the extractor returns the per-day
entry counts sorted descending; when the generated entries realise the
pattern `P` (their per-day counts, sorted descending, are exactly `P`'s
parsed blocks) and `P` is in descending normal form, the round trip returns
`P`. Grouped lessons multiply every count by the group count (see the
counterexample), so the round trip fails for them. -/
theorem pattern_roundtrip_ungrouped (P : String) (bs : List Int)
    (slots : List TimeSlot) (lesson_entries : List TimetableEntry)
    (_hparse : parsePattern P = some bs)
    (hnorm : intercalatePlus (bs.map toString) = P)
    (hcounts : sortDescBy id
      ((entriesByDay slots lesson_entries).map (fun dp => (dp.2.length : Int))) = bs)
    (hne : bs ≠ []) :
    extractLessonPattern slots lesson_entries = some P := by
  unfold extractLessonPattern
  have hbs : (entriesByDay slots lesson_entries).map (fun dp => (dp.2.length : Int)) ≠ [] := by
    intro h0
    apply hne
    rw [← hcounts, h0]
    rfl
  rw [if_pos hbs, hcounts, hnorm]

/-- C5 witness: the full round trip on snapshot E — the run realises pattern
"2+1" and the extractor returns "2+1". -/
theorem pattern_roundtrip_ungrouped_witness :
    runE.map (fun st => st.entries) = some entriesE ∧
    parsePattern "2+1" = some [2, 1] ∧
    extractLessonPattern slotsE entriesE = some "2+1" :=
  ⟨by rfl, by rfl,
    pattern_roundtrip_ungrouped "2+1" [2, 1] slotsE entriesE (by rfl) (by rfl)
      (by rfl) (by decide)⟩

/-- C6 counterexample: the heuristic's normaliser keeps the day-name key
`"monday"`, but the CP-SAT unavailability constraint builder calls
`int("monday")` and raises (modelled by `none`) — the two schedulers do NOT
both accept day-name keys. -/
theorem cpsat_rejects_day_name_keys :
    normalize_unavailable_slots [("monday", [1])] = [("monday", [1])] ∧
    teacherUnavailVars ⟨12, [("monday", [1])], none⟩ [] [] = none := by
  constructor
  · rfl
  · rfl

/-- C6 (amended): the heuristic normalises ordinal keys `"1"`…`"7"` and
lowercase day names to the same canonical form (so it treats the two forms
equivalently), while the CP-SAT strategy's unavailability parsing accepts
only ordinal keys and raises `ValueError` on a day-name key. -/
theorem unavailable_key_forms (dp : String × String)
    (hdp : dp ∈ DAY_NUMBER_TO_NAME) (periods : List Int) (t_id : Nat)
    (room : Option Nat) (lessons : List Lesson) (slots : List TimeSlot) :
    normalize_unavailable_slots [(dp.1, periods)] = [(dp.2, periods)] ∧
    normalize_unavailable_slots [(dp.2, periods)] = [(dp.2, periods)] ∧
    (∃ vs, teacherUnavailVars ⟨t_id, [(dp.1, periods)], room⟩ lessons slots = some vs) ∧
    teacherUnavailVars ⟨t_id, [(dp.2, periods)], room⟩ lessons slots = none := by
  fin_cases hdp <;>
    exact ⟨rfl, rfl, ⟨_, rfl⟩, rfl⟩

/-- C6 witness: the amended statement evaluated on the Monday pair. -/
theorem unavailable_key_forms_witness :
    normalize_unavailable_slots [("1", [1, 2])] = [("monday", [1, 2])] ∧
    normalize_unavailable_slots [("monday", [1, 2])] = [("monday", [1, 2])] ∧
    (∃ vs, teacherUnavailVars ⟨12, [("1", [1, 2])], none⟩ [] [] = some vs) ∧
    teacherUnavailVars ⟨12, [("monday", [1, 2])], none⟩ [] [] = none :=
  unavailable_key_forms ("1", "monday") (by decide) [1, 2] 12 none [] []

/-- C2 (amended): every entry extracted from a CP-SAT solution that satisfies
the model's per-class daily-cap constraint originates from a lesson/slot pair
whose slot period respects the cap of every class record of that lesson's
class (caps of 0 are falsy in the source and impose nothing). -/
theorem cpsat_entries_respect_class_cap (inp : CpsatInput) (a : Assign)
    (h : varsAllZero a (cpsatClassCapVars inp) = true)
    (e : TimetableEntry) (he : e ∈ cpsatExtractEntries inp a) :
    ∃ lp ∈ inp.lessons.enum, ∃ sp ∈ inp.time_slots.enum,
      e.lesson_id = lp.2.id ∧ e.time_slot_id = sp.2.id ∧
      ∀ cls ∈ inp.classes, cls.id = lp.2.class_id →
        ∀ cap, cls.max_hours_per_day = some cap → cap ≠ 0 →
          sp.2.period_number ≤ cap := by
  simp only [cpsatExtractEntries, List.mem_flatMap] at he
  obtain ⟨lp, hlp, sp, hsp, he⟩ := he
  have key : e.lesson_id = lp.2.id ∧ e.time_slot_id = sp.2.id ∧
      a lp.1 (gsel lp.2) sp.1 = true := by
    split_ifs at he with hg ha ha
    · rw [List.mem_map] at he
      obtain ⟨lg, _, he2⟩ := he
      subst he2
      exact ⟨rfl, rfl, by simpa [gsel, hg] using ha⟩
    · simp at he
    · rw [List.mem_singleton] at he
      subst he
      have hgsel : gsel lp.2 = none := by simp [gsel, hg]
      exact ⟨rfl, rfl, by rw [hgsel]; exact ha⟩
    · simp at he
  refine ⟨lp, hlp, sp, hsp, key.1, key.2.1, ?_⟩
  intro cls hcls hclsid cap hcap hcap0
  by_contra hgt
  push_neg at hgt
  have hv : (lp.1, gsel lp.2, sp.1) ∈ cpsatClassCapVars inp := by
    simp only [cpsatClassCapVars, List.mem_flatMap]
    refine ⟨cls, hcls, ?_⟩
    simp only [hcap]
    rw [if_neg hcap0, List.mem_flatMap]
    refine ⟨sp, hsp, ?_⟩
    rw [if_pos hgt, List.mem_filterMap]
    exact ⟨lp, hlp, by rw [if_pos hclsid.symm]⟩
  have hz := (List.all_eq_true.mp h) _ hv
  simp only [decide_eq_true_eq] at hz
  exact hz key.2.2

/-- C2 witness: the CP-SAT cap theorem instantiated on a one-lesson input
with class cap 1 and an assignment placing the lesson at period 1. -/
theorem cpsat_entries_respect_class_cap_witness :
    varsAllZero cpsatAW (cpsatClassCapVars cpsatInpW) = true ∧
    (⟨1, 101, 21, none, none⟩ : TimetableEntry) ∈ cpsatExtractEntries cpsatInpW cpsatAW ∧
    (∃ lp ∈ cpsatInpW.lessons.enum, ∃ sp ∈ cpsatInpW.time_slots.enum,
      (⟨1, 101, 21, none, none⟩ : TimetableEntry).lesson_id = lp.2.id ∧
      (⟨1, 101, 21, none, none⟩ : TimetableEntry).time_slot_id = sp.2.id ∧
      ∀ cls ∈ cpsatInpW.classes, cls.id = lp.2.class_id →
        ∀ cap, cls.max_hours_per_day = some cap → cap ≠ 0 →
          sp.2.period_number ≤ cap) :=
  ⟨by decide, by decide,
    cpsat_entries_respect_class_cap cpsatInpW cpsatAW (by decide) _ (by decide)⟩

end Timetables
